import Mathlib

/-!
Verification development for the Metriful MS430 `web_server.ino` example
(`src/Arduino/Examples/web_server/web_server.ino`).

The sketch is embedded shallowly:

* the fixed-size text buffers (`pageBuffer`, `lineBuffer`) become Lean
  `String`s built by concatenation; the C `sprintf`/`strcat` calls become
  explicit appends (`sprintf` into `pageBuffer` overwrites, `strcat`
  appends), and the capacity claim is settled by bounding the UTF-8 byte
  size of the assembled document;
* the sensor record structs become Lean structures over `Nat` fields with
  explicit range predicates standing for the C integer widths;
* the client dispatcher loop of `handleClientRequests` becomes a recursive
  function over the finite list of bytes a connection delivers before it
  closes;
* one pass of `loop()` after the data-ready event becomes a step function
  on an explicit state, emitting a trace of externally visible actions.

Definitions carrying a `Modelled from the spec:` doc comment stand for
code of this repository that is not under `src/` (the Metriful_sensor /
WiFi_functions library headers): struct field widths, the interpretation
tables, the unit symbol macros and the cycle-period register codes.
-/

set_option maxRecDepth 100000

/-- Number of bytes of the UTF-8 encoding of one character. -/
def charBytes (c : Char) : Nat :=
  if c.toNat < 128 then 1
  else if c.toNat < 2048 then 2
  else if c.toNat < 65536 then 3
  else 4

/-- UTF-8 byte count of a list of characters. -/
def listBytes (l : List Char) : Nat :=
  (l.map charBytes).sum

/-- UTF-8 byte count of a string: the number of bytes `client.print`
sends for it, and the number of `char` cells it occupies in a C buffer
(excluding the terminating NUL). -/
def byteSize (s : String) : Nat :=
  listBytes s.data

theorem data_append (s t : String) : (s ++ t).data = s.data ++ t.data := by
  cases s; cases t; rfl

theorem listBytes_append (a b : List Char) :
    listBytes (a ++ b) = listBytes a + listBytes b := by
  simp [listBytes]

theorem byteSize_append (s t : String) :
    byteSize (s ++ t) = byteSize s + byteSize t := by
  simp [byteSize, data_append, listBytes_append]

/-- Decimal digits of `n`, most significant first, prepended to `acc`:
the character sequence `sprintf("%u", n)` produces. -/
def natDigitsCore (n : Nat) (acc : List Char) : List Char :=
  if n < 10 then Nat.digitChar n :: acc
  else natDigitsCore (n / 10) (Nat.digitChar (n % 10) :: acc)
  termination_by n
  decreasing_by exact Nat.div_lt_self (by omega) (by omega)

/-- Structurally recursive form of `natDigitsCore` (first argument is
fuel, always sufficient when it is at least `n`); this form evaluates by
kernel reduction. -/
def natDigitsAux : Nat → Nat → List Char → List Char
  | 0, n, acc => Nat.digitChar n :: acc
  | fuel + 1, n, acc =>
    if n < 10 then Nat.digitChar n :: acc
    else natDigitsAux fuel (n / 10) (Nat.digitChar (n % 10) :: acc)

/-- Rendering of `sprintf("%u", n)`. -/
def decimal (n : Nat) : String :=
  ⟨natDigitsAux n n []⟩

/-- Rendering of `sprintf("%02u", n)`: at least two digits, zero padded. -/
def decimal02 (n : Nat) : String :=
  if n < 10 then "0" ++ decimal n else decimal n

theorem natDigitsCore_unfold (n : Nat) (acc : List Char) :
    natDigitsCore n acc =
      if n < 10 then Nat.digitChar n :: acc
      else natDigitsCore (n / 10) (Nat.digitChar (n % 10) :: acc) := by
  rw [natDigitsCore]

theorem natDigitsCore_mem (n : Nat) (acc : List Char) :
    ∀ c ∈ natDigitsCore n acc, (∃ d, d < 10 ∧ c = Nat.digitChar d) ∨ c ∈ acc := by
  induction n using Nat.strong_induction_on generalizing acc with
  | _ n ih =>
    rw [natDigitsCore_unfold]
    by_cases h : n < 10
    · simp only [if_pos h]
      intro c hc
      rcases List.mem_cons.mp hc with h1 | h1
      · exact Or.inl ⟨n, h, h1⟩
      · exact Or.inr h1
    · simp only [if_neg h]
      intro c hc
      rcases ih (n / 10) (Nat.div_lt_self (by omega) (by omega)) _ c hc with h1 | h1
      · exact Or.inl h1
      · rcases List.mem_cons.mp h1 with h2 | h2
        · exact Or.inl ⟨n % 10, Nat.mod_lt _ (by omega), h2⟩
        · exact Or.inr h2

theorem charBytes_digitChar (d : Nat) (h : d < 10) :
    charBytes (Nat.digitChar d) = 1 := by
  interval_cases d <;> decide

theorem listBytes_eq_length (l : List Char) (h : ∀ c ∈ l, charBytes c = 1) :
    listBytes l = l.length := by
  induction l with
  | nil => rfl
  | cons a l ih =>
    simp only [listBytes, List.map_cons, List.sum_cons, List.length_cons] at *
    rw [h a (by simp), ih fun c hc => h c (by simp [hc])]
    omega

theorem natDigitsCore_length (n : Nat) (acc : List Char) :
    (natDigitsCore n acc).length = (natDigitsCore n []).length + acc.length := by
  induction n using Nat.strong_induction_on generalizing acc with
  | _ n ih =>
    rw [natDigitsCore_unfold, natDigitsCore_unfold n []]
    by_cases h : n < 10
    · simp only [if_pos h, List.length_cons, List.length_nil]
      omega
    · have hlt : n / 10 < n := Nat.div_lt_self (by omega) (by omega)
      simp only [if_neg h]
      rw [ih (n / 10) hlt, ih (n / 10) hlt (Nat.digitChar (n % 10) :: [])]
      simp only [List.length_cons, List.length_nil]
      omega

theorem natDigitsAux_eq_core :
    ∀ fuel n acc, n ≤ fuel → natDigitsAux fuel n acc = natDigitsCore n acc := by
  intro fuel
  induction fuel with
  | zero =>
    intro n acc h
    have hn : n = 0 := by omega
    subst hn
    rw [natDigitsCore_unfold]
    simp [natDigitsAux]
  | succ fuel ih =>
    intro n acc h
    rw [natDigitsCore_unfold]
    simp only [natDigitsAux]
    by_cases h10 : n < 10
    · rw [if_pos h10, if_pos h10]
    · rw [if_neg h10, if_neg h10]
      exact ih (n / 10) _ (by omega)

theorem decimal_eq_core (n : Nat) : decimal n = ⟨natDigitsCore n []⟩ := by
  unfold decimal
  rw [natDigitsAux_eq_core n n [] (Nat.le_refl n)]

theorem byteSize_decimal_eq (n : Nat) :
    byteSize (decimal n) = (natDigitsCore n []).length := by
  rw [decimal_eq_core]
  apply listBytes_eq_length
  intro c hc
  rcases natDigitsCore_mem n [] c hc with ⟨d, hd, hcd⟩ | h
  · rw [hcd]; exact charBytes_digitChar d hd
  · exact absurd h (List.not_mem_nil c)

theorem natDigitsCore_nil_length_le (k : Nat) :
    ∀ n, n < 10 ^ k → 0 < k → (natDigitsCore n []).length ≤ k := by
  induction k with
  | zero => intro n _ h; omega
  | succ k ih =>
    intro n hn _
    rw [natDigitsCore_unfold]
    by_cases h : n < 10
    · simp [if_pos h]
    · simp only [if_neg h]
      have hk : 0 < k := by
        by_contra hk
        have : k = 0 := by omega
        subst this
        simp [pow_succ] at hn
        omega
      have hdiv : n / 10 < 10 ^ k := by
        apply Nat.div_lt_of_lt_mul
        rw [pow_succ] at hn
        omega
      rw [natDigitsCore_length]
      have := ih (n / 10) hdiv hk
      simp
      omega

theorem byteSize_decimal_le (k n : Nat) (hn : n < 10 ^ k) (hk : 0 < k) :
    byteSize (decimal n) ≤ k := by
  rw [byteSize_decimal_eq]
  exact natDigitsCore_nil_length_le k n hn hk

theorem byteSize_decimal_le_one (n : Nat) (h : n < 10) :
    byteSize (decimal n) ≤ 1 :=
  byteSize_decimal_le 1 n (by omega) (by omega)

theorem byteSize_decimal_le_two (n : Nat) (h : n < 100) :
    byteSize (decimal n) ≤ 2 :=
  byteSize_decimal_le 2 n (by norm_num; omega) (by omega)

theorem byteSize_decimal_le_three (n : Nat) (h : n < 1000) :
    byteSize (decimal n) ≤ 3 :=
  byteSize_decimal_le 3 n (by norm_num; omega) (by omega)

theorem byteSize_decimal_le_five (n : Nat) (h : n < 65536) :
    byteSize (decimal n) ≤ 5 :=
  byteSize_decimal_le 5 n (by norm_num; omega) (by omega)

theorem byteSize_decimal_le_ten (n : Nat) (h : n < 4294967296) :
    byteSize (decimal n) ≤ 10 :=
  byteSize_decimal_le 10 n (by norm_num; omega) (by omega)

theorem byteSize_decimal02_le (n : Nat) (h : n < 100) :
    byteSize (decimal02 n) ≤ 2 := by
  unfold decimal02
  by_cases h10 : n < 10
  · rw [if_pos h10, byteSize_append]
    have := byteSize_decimal_le_one n h10
    have h0 : byteSize "0" = 1 := by decide
    omega
  · rw [if_neg h10]
    exact byteSize_decimal_le_two n h

/-- Modelled from the spec: the three-way particulate-sensor configuration
(`PARTICLE_SENSOR` in Metriful_sensor.h): off / model A (PPD42) /
model B (SDS011). -/
inductive ParticleSensorT where
  | off
  | ppd42
  | sds011
deriving DecidableEq

/-- Modelled from the spec: the three acquisition-cadence register codes
(`CYCLE_PERIOD_3_S` / `CYCLE_PERIOD_100_S` / `CYCLE_PERIOD_300_S` in
Metriful_sensor.h), every 3, 100 or 300 seconds. -/
inductive CyclePeriod where
  | s3
  | s100
  | s300
deriving DecidableEq

/-- Modelled from the spec: the configured interval between successive
sensor acquisitions, in seconds, for each cadence code. -/
def cyclePeriodSeconds : CyclePeriod → Nat
  | .s3 => 3
  | .s100 => 100
  | .s300 => 300

/-- The refresh hint chosen in `setup()` (web_server.ino lines 124-132):
3 s cadence gives 3, 100 s gives 30, anything else (300 s) gives 50. -/
def setupRefreshPeriodSeconds (cycle_period : CyclePeriod) : Nat :=
  if cycle_period = CyclePeriod.s3 then 3
  else if cycle_period = CyclePeriod.s100 then 30
  else 50

/-- Modelled from the spec: `AirData_t` (Metriful_sensor.h).  Fields are
`Nat` standing for the C unsigned integers; `P_Pa` and `G_ohm` are printed
with `PRIu32` in web_server.ino, the rest with `%u`; the one-fractional-
digit fields carry a 0..9 contract.  The temperature integer byte packs a
sign bit (bit 7) and a 0..127 magnitude. -/
structure AirData where
  T_C_int_with_sign : Nat
  T_C_fr_1dp : Nat
  P_Pa : Nat
  H_pc_int : Nat
  H_pc_fr_1dp : Nat
  G_ohm : Nat

/-- Modelled from the spec: `AirQualityData_t` (Metriful_sensor.h);
validity of the data values is gated by `AQI_accuracy` (0 = uncalibrated). -/
structure AirQualityData where
  AQI_int : Nat
  AQI_fr_1dp : Nat
  CO2e_int : Nat
  CO2e_fr_1dp : Nat
  bVOC_int : Nat
  bVOC_fr_2dp : Nat
  AQI_accuracy : Nat

/-- Modelled from the spec: `LightData_t` (Metriful_sensor.h). -/
structure LightData where
  illum_lux_int : Nat
  illum_lux_fr_2dp : Nat
  white : Nat

/-- Modelled from the spec: `SoundData_t` (Metriful_sensor.h); the band
arrays are indexed 0 .. SOUND_FREQ_BANDS-1. -/
structure SoundData where
  SPL_dBA_int : Nat
  SPL_dBA_fr_1dp : Nat
  SPL_bands_dB_int : Nat → Nat
  SPL_bands_dB_fr_1dp : Nat → Nat
  peak_amp_mPa_int : Nat
  peak_amp_mPa_fr_2dp : Nat

/-- Modelled from the spec: `ParticleData_t` (Metriful_sensor.h). -/
structure ParticleData where
  duty_cycle_pc_int : Nat
  duty_cycle_pc_fr_2dp : Nat
  concentration_int : Nat
  concentration_fr_2dp : Nat

/-- The five data records the sketch keeps as globals (web_server.ino
lines 70-74). -/
structure Records where
  air : AirData
  airQuality : AirQualityData
  light : LightData
  sound : SoundData
  particle : ParticleData

/-- Modelled from the spec: `SOUND_FREQ_BANDS`, the fixed number of
frequency-band rows (Metriful_sensor.h). -/
def SOUND_FREQ_BANDS : Nat := 6

/-- Modelled from the spec: `sound_band_mids_Hz`, the midpoint-frequency
labels of the six octave bands (Metriful_sensor.h). -/
def sound_band_mids_Hz (i : Nat) : Nat :=
  [125, 250, 500, 1000, 2000, 4000].getD i 0

/-- Modelled from the spec: `OHM_SYMBOL` (Metriful_sensor.h). -/
def OHM_SYMBOL : String := "Ω"

/-- Modelled from the spec: `SUBSCRIPT_2` (Metriful_sensor.h). -/
def SUBSCRIPT_2 : String := "₂"

/-- Modelled from the spec: `SDS011_UNIT_SYMBOL` (Metriful_sensor.h). -/
def SDS011_UNIT_SYMBOL : String := "µg/m³"

/-- Modelled from the spec: `CELSIUS_SYMBOL`, the unit string
`getTemperature` returns in the default Celsius configuration
(Metriful_sensor.h). -/
def CELSIUS_SYMBOL : String := "°C"

/-- Modelled from the spec: the magnitude part `getTemperature` extracts
from the sign/magnitude temperature byte (Metriful_sensor.h; low 7 bits). -/
def getTemperatureIntPart (d : AirData) : Nat :=
  d.T_C_int_with_sign % 128

/-- Modelled from the spec: the sign `getTemperature` extracts from the
sign/magnitude temperature byte (bit 7 clear means non-negative). -/
def getTemperatureIsPositive (d : AirData) : Prop :=
  d.T_C_int_with_sign < 128

instance (d : AirData) : Decidable (getTemperatureIsPositive d) :=
  inferInstanceAs (Decidable (_ < _))

/-- Modelled from the spec: `interpret_AQI_accuracy` (Metriful_sensor
library), the accuracy-explanation messages; code 0 is the
not-yet-calibrated message. -/
def interpret_AQI_accuracy (n : Nat) : String :=
  if n = 0 then "Not yet valid, self-calibration incomplete"
  else if n = 1 then "Low accuracy, self-calibration ongoing"
  else if n = 2 then "Medium accuracy, self-calibration ongoing"
  else "High accuracy"

/-- Modelled from the spec: `interpret_AQI_value` (Metriful_sensor
library), the air-quality summary interpretation table. -/
def interpret_AQI_value (n : Nat) : String :=
  if n < 50 then "Good"
  else if n < 100 then "Acceptable"
  else if n < 150 then "Substandard"
  else if n < 200 then "Poor"
  else if n < 300 then "Bad"
  else "Very bad"

/-- The HTTP response header block `sprintf`-ed into `pageBuffer`
(web_server.ino lines 245-248). -/
def httpHeader (refreshPeriodSeconds : Nat) : String :=
  "HTTP/1.1 200 OK\r\n" ++
  "Content-type: text/html\r\n" ++
  "Connection: close\r\n" ++
  "Refresh: " ++ decimal refreshPeriodSeconds ++ "\r\n\r\n"

/-- The fixed document head and inline CSS (web_server.ino lines 250-266). -/
def htmlHead : String :=
  "<!DOCTYPE HTML><html><head>" ++
  "<meta charset=\x27UTF-8\x27>" ++
  "<title>Metriful Sensor Demo</title>" ++
  "<style>" ++
  "h1\x7bfont-size: 3vw;\x7d" ++
  "h2\x7bfont-size: 2vw; margin-top: 4vw;\x7d" ++
  "a\x7bpadding: 1vw; font-size: 2vw;\x7d" ++
  "table,th,td\x7bfont-size: 2vw;\x7d" ++
  "body\x7bpadding: 0vw 2vw;\x7d" ++
  "th,td\x7bpadding: 0.05vw 1vw; text-align: left;\x7d" ++
  "#v1\x7btext-align: right; width: 10vw;\x7d" ++
  "#v2\x7btext-align: right; width: 13vw;\x7d" ++
  "#v3\x7btext-align: right; width: 10vw;\x7d" ++
  "#v4\x7btext-align: right; width: 10vw;\x7d" ++
  "#v5\x7btext-align: right; width: 11vw;\x7d" ++
  "</style></head>" ++
  "<body><h1>Indoor Environment Data</h1>"

/-- The Air Data table (web_server.ino lines 270-290). -/
def airSection (d : AirData) : String :=
  "<p><h2>Air Data</h2><table>" ++
  ("<tr><td>Temperature</td><td id=\x27v1\x27>" ++
    (if getTemperatureIsPositive d then "" else "-") ++
    decimal (getTemperatureIntPart d) ++ "." ++ decimal d.T_C_fr_1dp ++
    "</td><td>" ++ CELSIUS_SYMBOL ++ "</td></tr>") ++
  ("<tr><td>Pressure</td><td id=\x27v1\x27>" ++ decimal d.P_Pa ++
    "</td><td>Pa</td></tr>") ++
  ("<tr><td>Humidity</td><td id=\x27v1\x27>" ++ decimal d.H_pc_int ++ "." ++
    decimal d.H_pc_fr_1dp ++ "</td><td>%</td></tr>") ++
  ("<tr><td>Gas Sensor Resistance</td><td id=\x27v1\x27>" ++ decimal d.G_ohm ++
    "</td><td>" ++ OHM_SYMBOL ++ "</td></tr></table></p>")

/-- First row of the air-quality table (web_server.ino lines 301-303). -/
def aqRow1 (q : AirQualityData) : String :=
  "<table><tr><td>Air Quality Index</td><td id=\x27v2\x27>" ++
  decimal q.AQI_int ++ "." ++ decimal q.AQI_fr_1dp ++ "</td><td></td></tr>"

/-- Second row of the air-quality table (web_server.ino lines 305-307). -/
def aqRow2 (q : AirQualityData) : String :=
  "<tr><td>Air Quality Summary</td><td id=\x27v2\x27>" ++
  interpret_AQI_value q.AQI_int ++ "</td><td></td></tr>"

/-- Third row of the air-quality table (web_server.ino lines 309-311). -/
def aqRow3 (q : AirQualityData) : String :=
  "<tr><td>Estimated CO" ++ SUBSCRIPT_2 ++ "</td><td id=\x27v2\x27>" ++
  decimal q.CO2e_int ++ "." ++ decimal q.CO2e_fr_1dp ++
  "</td><td>ppm</td></tr>"

/-- Fourth row of the air-quality table (web_server.ino lines 313-316). -/
def aqRow4 (q : AirQualityData) : String :=
  "<tr><td>Equivalent Breath VOC</td><td id=\x27v2\x27>" ++
  decimal q.bVOC_int ++ "." ++ decimal02 q.bVOC_fr_2dp ++
  "</td><td>ppm</td></tr></table></p>"

/-- The Air Quality Data section (web_server.ino lines 294-317): only the
accuracy-explanation message while `AQI_accuracy` is 0, otherwise the
four-row table. -/
def airQualitySection (q : AirQualityData) : String :=
  "<p><h2>Air Quality Data</h2>" ++
  (if q.AQI_accuracy = 0 then
    "<a>" ++ interpret_AQI_accuracy q.AQI_accuracy ++ "</a></p>"
  else
    aqRow1 q ++ aqRow2 q ++ aqRow3 q ++ aqRow4 q)

/-- One frequency-band row of the sound table (web_server.ino
lines 329-332), for loop index `i`. -/
def soundBandRow (sd : SoundData) (i : Nat) : String :=
  "<tr><td>Frequency Band " ++ decimal (i + 1) ++ " (" ++
  decimal (sound_band_mids_Hz i) ++ " Hz) SPL</td><td id=\x27v3\x27>" ++
  decimal (sd.SPL_bands_dB_int i) ++ "." ++
  decimal (sd.SPL_bands_dB_fr_1dp i) ++ "</td><td>dB</td></tr>"

/-- The first `k` iterations of the band-row loop (web_server.ino
lines 328-333), appended in index order. -/
def soundBandRows (sd : SoundData) : Nat → String
  | 0 => ""
  | k + 1 => soundBandRows sd k ++ soundBandRow sd k

/-- The Sound Data section (web_server.ino lines 321-338). -/
def soundSection (sd : SoundData) : String :=
  "<p><h2>Sound Data</h2><table>" ++
  ("<tr><td>A-weighted Sound Pressure Level</td><td id=\x27v3\x27>" ++
    decimal sd.SPL_dBA_int ++ "." ++ decimal sd.SPL_dBA_fr_1dp ++
    "</td><td>dBA</td></tr>") ++
  soundBandRows sd SOUND_FREQ_BANDS ++
  ("<tr><td>Peak Sound Amplitude</td><td id=\x27v3\x27>" ++
    decimal sd.peak_amp_mPa_int ++ "." ++ decimal02 sd.peak_amp_mPa_fr_2dp ++
    "</td><td>mPa</td></tr></table></p>")

/-- The Light Data section (web_server.ino lines 342-350). -/
def lightSection (ld : LightData) : String :=
  "<p><h2>Light Data</h2><table>" ++
  ("<tr><td>Illuminance</td><td id=\x27v4\x27>" ++ decimal ld.illum_lux_int ++
    "." ++ decimal02 ld.illum_lux_fr_2dp ++ "</td><td>lux</td></tr>") ++
  ("<tr><td>White Light Level</td><td id=\x27v4\x27>" ++ decimal ld.white ++
    "</td><td></td></tr></table></p>")

/-- The `unitsBuffer` contents (web_server.ino lines 361-370): the
variant-specific particle-concentration unit label. -/
def unitsBuffer (sensor : ParticleSensorT) : String :=
  if sensor = ParticleSensorT.ppd42 then "ppL"
  else if sensor = ParticleSensorT.sds011 then SDS011_UNIT_SYMBOL
  else "(?)"

/-- The Air Particulate Data section (web_server.ino lines 354-375),
empty when no particulate sensor is configured. -/
def particulateSection (sensor : ParticleSensorT) (pd : ParticleData) : String :=
  if sensor ≠ ParticleSensorT.off then
    "<p><h2>Air Particulate Data</h2><table>" ++
    ("<tr><td>Sensor Duty Cycle</td><td id=\x27v5\x27>" ++
      decimal pd.duty_cycle_pc_int ++ "." ++
      decimal02 pd.duty_cycle_pc_fr_2dp ++ "</td><td>%</td></tr>") ++
    ("<tr><td>Particle Concentration</td><td id=\x27v5\x27>" ++
      decimal pd.concentration_int ++ "." ++
      decimal02 pd.concentration_fr_2dp ++
      ("</td><td>" ++ unitsBuffer sensor ++ "</td></tr></table></p>"))
  else ""

/-- The closing tags (web_server.ino line 379). -/
def pageClose : String := "</body></html>"

/-- The HTML body: everything `strcat`-ed after the header block. -/
def htmlBody (sensor : ParticleSensorT) (r : Records) : String :=
  htmlHead ++ airSection r.air ++ airQualitySection r.airQuality ++
  soundSection r.sound ++ lightSection r.light ++
  particulateSection sensor r.particle ++ pageClose

/-- `sprintf` into a buffer discards its previous contents. -/
def sprintfInto (_old : String) (new : String) : String := new

/-- `strcat` appends to the current buffer contents. -/
def strcatInto (buf : String) (s : String) : String := buf ++ s

/-- `assembleWebPage()` (web_server.ino lines 244-380) acting on an
arbitrary previous `pageBuffer` content: the initial `sprintf` overwrites
the buffer with the header block, every following `sprintf(lineBuffer,..)`
plus `strcat(pageBuffer, lineBuffer)` pair appends one formatted piece. -/
def assembleWebPageFrom (buf : String) (sensor : ParticleSensorT)
    (r : Records) (refreshPeriodSeconds : Nat) : String :=
  strcatInto
    (strcatInto
      (strcatInto
        (strcatInto
          (strcatInto
            (strcatInto
              (strcatInto
                (sprintfInto buf (httpHeader refreshPeriodSeconds))
                htmlHead)
              (airSection r.air))
            (airQualitySection r.airQuality))
          (soundSection r.sound))
        (lightSection r.light))
      (particulateSection sensor r.particle))
    pageClose

/-- The document `assembleWebPage()` leaves in `pageBuffer`. -/
def assembleWebPage (sensor : ParticleSensorT) (r : Records)
    (refreshPeriodSeconds : Nat) : String :=
  assembleWebPageFrom "" sensor r refreshPeriodSeconds

/-- Field ranges of `AirData_t`: the C integer widths (uint8 for the
temperature bytes and humidity, uint32 for pressure and gas resistance as
printed with PRIu32), with the one-fractional-digit contract 0..9. -/
def AirData.valid (d : AirData) : Prop :=
  d.T_C_int_with_sign < 256 ∧ d.T_C_fr_1dp ≤ 9 ∧ d.P_Pa < 4294967296 ∧
  d.H_pc_int < 256 ∧ d.H_pc_fr_1dp ≤ 9 ∧ d.G_ohm < 4294967296

/-- Field ranges of `AirQualityData_t` (uint16 integer parts, uint8
accuracy, 1dp fields 0..9, 2dp fields 0..99). -/
def AirQualityData.valid (q : AirQualityData) : Prop :=
  q.AQI_int < 65536 ∧ q.AQI_fr_1dp ≤ 9 ∧ q.CO2e_int < 65536 ∧
  q.CO2e_fr_1dp ≤ 9 ∧ q.bVOC_int < 65536 ∧ q.bVOC_fr_2dp ≤ 99 ∧
  q.AQI_accuracy < 256

/-- Field ranges of `LightData_t`. -/
def LightData.valid (ld : LightData) : Prop :=
  ld.illum_lux_int < 65536 ∧ ld.illum_lux_fr_2dp ≤ 99 ∧ ld.white < 65536

/-- Field ranges of `SoundData_t`. -/
def SoundData.valid (sd : SoundData) : Prop :=
  sd.SPL_dBA_int < 256 ∧ sd.SPL_dBA_fr_1dp ≤ 9 ∧
  (∀ i, i < SOUND_FREQ_BANDS → sd.SPL_bands_dB_int i < 256) ∧
  (∀ i, i < SOUND_FREQ_BANDS → sd.SPL_bands_dB_fr_1dp i ≤ 9) ∧
  sd.peak_amp_mPa_int < 65536 ∧ sd.peak_amp_mPa_fr_2dp ≤ 99

/-- Field ranges of `ParticleData_t`. -/
def ParticleData.valid (pd : ParticleData) : Prop :=
  pd.duty_cycle_pc_int < 256 ∧ pd.duty_cycle_pc_fr_2dp ≤ 99 ∧
  pd.concentration_int < 65536 ∧ pd.concentration_fr_2dp ≤ 99

/-- All five records within their field ranges. -/
def Records.valid (r : Records) : Prop :=
  r.air.valid ∧ r.airQuality.valid ∧ r.light.valid ∧ r.sound.valid ∧
  r.particle.valid

instance (d : AirData) : Decidable d.valid := by
  unfold AirData.valid; infer_instance

instance (q : AirQualityData) : Decidable q.valid := by
  unfold AirQualityData.valid; infer_instance

instance (ld : LightData) : Decidable ld.valid := by
  unfold LightData.valid; infer_instance

instance (sd : SoundData) : Decidable sd.valid := by
  unfold SoundData.valid; infer_instance

instance (pd : ParticleData) : Decidable pd.valid := by
  unfold ParticleData.valid; infer_instance

instance (r : Records) : Decidable r.valid := by
  unfold Records.valid; infer_instance

/-- An extremal air record: maximum digit counts in every field (negative
temperature of maximal magnitude, ten-digit pressure and gas resistance). -/
def maxAir : AirData := ⟨255, 9, 4294967295, 255, 9, 4294967295⟩

/-- An extremal air-quality record in the calibrated (table) branch. -/
def maxAQ : AirQualityData := ⟨65535, 9, 65535, 9, 65535, 99, 1⟩

/-- An extremal light record. -/
def maxLight : LightData := ⟨65535, 99, 65535⟩

/-- An extremal sound record. -/
def maxSound : SoundData := ⟨255, 9, fun _ => 255, fun _ => 9, 65535, 99⟩

/-- An extremal particle record. -/
def maxPart : ParticleData := ⟨255, 99, 65535, 99⟩

/-- The extremal record set used as the comparison point for the buffer
capacity bound. -/
def maxRecords : Records := ⟨maxAir, maxAQ, maxLight, maxSound, maxPart⟩

theorem byteSize_interpret_AQI_value_le (n : Nat) :
    byteSize (interpret_AQI_value n) ≤ 11 := by
  unfold interpret_AQI_value
  repeat' split
  all_goals decide

theorem interpret_AQI_value_of_ge (n : Nat) (h : 300 ≤ n) :
    interpret_AQI_value n = "Very bad" := by
  unfold interpret_AQI_value
  rw [if_neg (by omega), if_neg (by omega), if_neg (by omega),
    if_neg (by omega), if_neg (by omega)]

/-- Joint bound for the index digits of row 1 and the summary string of
row 2 of the air-quality table, both driven by `AQI_int`. -/
theorem aqi_joint_le (n : Nat) (h : n < 65536) :
    byteSize (decimal n) + byteSize (interpret_AQI_value n) ≤ 14 := by
  by_cases h1 : n < 1000
  · have hd := byteSize_decimal_le_three n h1
    have hi := byteSize_interpret_AQI_value_le n
    omega
  · have hd := byteSize_decimal_le_five n h
    rw [interpret_AQI_value_of_ge n (by omega)]
    have hv : byteSize "Very bad" = 8 := by decide
    omega

theorem httpHeader_le (n : Nat) (hn : n < 65536) :
    byteSize (httpHeader n) ≤ byteSize (httpHeader 65535) := by
  unfold httpHeader
  simp only [byteSize_append]
  have h1 := byteSize_decimal_le_five n hn
  have h2 : byteSize (decimal 65535) = 5 := by decide
  omega

theorem airSection_le (d : AirData) (h : d.valid) :
    byteSize (airSection d) ≤ byteSize (airSection maxAir) := by
  obtain ⟨h1, h2, h3, h4, h5, h6⟩ := h
  unfold airSection
  simp only [byteSize_append]
  have s1 : byteSize (if getTemperatureIsPositive d then "" else "-") ≤ 1 := by
    split <;> decide
  have s1r : byteSize (if getTemperatureIsPositive maxAir then "" else "-") = 1 := by
    decide
  have t1 : byteSize (decimal (getTemperatureIntPart d)) ≤ 3 := by
    apply byteSize_decimal_le_three
    unfold getTemperatureIntPart
    omega
  have t1r : byteSize (decimal (getTemperatureIntPart maxAir)) = 3 := by decide
  have t2 : byteSize (decimal d.T_C_fr_1dp) ≤ 1 := byteSize_decimal_le_one _ (by omega)
  have t2r : byteSize (decimal maxAir.T_C_fr_1dp) = 1 := by decide
  have p1 : byteSize (decimal d.P_Pa) ≤ 10 := byteSize_decimal_le_ten _ h3
  have p1r : byteSize (decimal maxAir.P_Pa) = 10 := by decide
  have u1 : byteSize (decimal d.H_pc_int) ≤ 3 := byteSize_decimal_le_three _ (by omega)
  have u1r : byteSize (decimal maxAir.H_pc_int) = 3 := by decide
  have u2 : byteSize (decimal d.H_pc_fr_1dp) ≤ 1 := byteSize_decimal_le_one _ (by omega)
  have u2r : byteSize (decimal maxAir.H_pc_fr_1dp) = 1 := by decide
  have g1 : byteSize (decimal d.G_ohm) ≤ 10 := byteSize_decimal_le_ten _ h6
  have g1r : byteSize (decimal maxAir.G_ohm) = 10 := by decide
  omega

theorem airQualitySection_le (q : AirQualityData) (h : q.valid) :
    byteSize (airQualitySection q) ≤ byteSize (airQualitySection maxAQ) + 1 := by
  obtain ⟨h1, h2, h3, h4, h5, h6, h7⟩ := h
  unfold airQualitySection
  by_cases h0 : q.AQI_accuracy = 0
  · rw [if_pos h0, h0, if_neg (show ¬ maxAQ.AQI_accuracy = 0 by decide)]
    decide
  · rw [if_neg h0, if_neg (show ¬ maxAQ.AQI_accuracy = 0 by decide)]
    unfold aqRow1 aqRow2 aqRow3 aqRow4
    simp only [byteSize_append]
    have j := aqi_joint_le q.AQI_int h1
    have jr : byteSize (decimal maxAQ.AQI_int) = 5 := by decide
    have jr2 : byteSize (interpret_AQI_value maxAQ.AQI_int) = 8 := by decide
    have a1 : byteSize (decimal q.AQI_fr_1dp) ≤ 1 := byteSize_decimal_le_one _ (by omega)
    have a1r : byteSize (decimal maxAQ.AQI_fr_1dp) = 1 := by decide
    have c1 : byteSize (decimal q.CO2e_int) ≤ 5 := byteSize_decimal_le_five _ h3
    have c1r : byteSize (decimal maxAQ.CO2e_int) = 5 := by decide
    have c2 : byteSize (decimal q.CO2e_fr_1dp) ≤ 1 := byteSize_decimal_le_one _ (by omega)
    have c2r : byteSize (decimal maxAQ.CO2e_fr_1dp) = 1 := by decide
    have v1 : byteSize (decimal q.bVOC_int) ≤ 5 := byteSize_decimal_le_five _ h5
    have v1r : byteSize (decimal maxAQ.bVOC_int) = 5 := by decide
    have v2 : byteSize (decimal02 q.bVOC_fr_2dp) ≤ 2 := byteSize_decimal02_le _ (by omega)
    have v2r : byteSize (decimal02 maxAQ.bVOC_fr_2dp) = 2 := by decide
    omega

theorem soundBandRows_six (sd : SoundData) :
    soundBandRows sd SOUND_FREQ_BANDS =
      ((((("" ++ soundBandRow sd 0) ++ soundBandRow sd 1) ++ soundBandRow sd 2) ++
        soundBandRow sd 3) ++ soundBandRow sd 4) ++ soundBandRow sd 5 := rfl

theorem soundSection_le (sd : SoundData) (h : sd.valid) :
    byteSize (soundSection sd) ≤ byteSize (soundSection maxSound) := by
  obtain ⟨h1, h2, h3, h4, h5, h6⟩ := h
  unfold soundSection
  rw [soundBandRows_six, soundBandRows_six]
  unfold soundBandRow
  simp only [byteSize_append]
  have s1 : byteSize (decimal sd.SPL_dBA_int) ≤ 3 := byteSize_decimal_le_three _ (by omega)
  have s1r : byteSize (decimal maxSound.SPL_dBA_int) = 3 := by decide
  have s2 : byteSize (decimal sd.SPL_dBA_fr_1dp) ≤ 1 := byteSize_decimal_le_one _ (by omega)
  have s2r : byteSize (decimal maxSound.SPL_dBA_fr_1dp) = 1 := by decide
  have b0 : byteSize (decimal (sd.SPL_bands_dB_int 0)) ≤ 3 :=
    byteSize_decimal_le_three _ (by have := h3 0 (by decide); omega)
  have b1 : byteSize (decimal (sd.SPL_bands_dB_int 1)) ≤ 3 :=
    byteSize_decimal_le_three _ (by have := h3 1 (by decide); omega)
  have b2 : byteSize (decimal (sd.SPL_bands_dB_int 2)) ≤ 3 :=
    byteSize_decimal_le_three _ (by have := h3 2 (by decide); omega)
  have b3 : byteSize (decimal (sd.SPL_bands_dB_int 3)) ≤ 3 :=
    byteSize_decimal_le_three _ (by have := h3 3 (by decide); omega)
  have b4 : byteSize (decimal (sd.SPL_bands_dB_int 4)) ≤ 3 :=
    byteSize_decimal_le_three _ (by have := h3 4 (by decide); omega)
  have b5 : byteSize (decimal (sd.SPL_bands_dB_int 5)) ≤ 3 :=
    byteSize_decimal_le_three _ (by have := h3 5 (by decide); omega)
  have br0 : byteSize (decimal (maxSound.SPL_bands_dB_int 0)) = 3 := by decide
  have br1 : byteSize (decimal (maxSound.SPL_bands_dB_int 1)) = 3 := by decide
  have br2 : byteSize (decimal (maxSound.SPL_bands_dB_int 2)) = 3 := by decide
  have br3 : byteSize (decimal (maxSound.SPL_bands_dB_int 3)) = 3 := by decide
  have br4 : byteSize (decimal (maxSound.SPL_bands_dB_int 4)) = 3 := by decide
  have br5 : byteSize (decimal (maxSound.SPL_bands_dB_int 5)) = 3 := by decide
  have f0 : byteSize (decimal (sd.SPL_bands_dB_fr_1dp 0)) ≤ 1 :=
    byteSize_decimal_le_one _ (by have := h4 0 (by decide); omega)
  have f1 : byteSize (decimal (sd.SPL_bands_dB_fr_1dp 1)) ≤ 1 :=
    byteSize_decimal_le_one _ (by have := h4 1 (by decide); omega)
  have f2 : byteSize (decimal (sd.SPL_bands_dB_fr_1dp 2)) ≤ 1 :=
    byteSize_decimal_le_one _ (by have := h4 2 (by decide); omega)
  have f3 : byteSize (decimal (sd.SPL_bands_dB_fr_1dp 3)) ≤ 1 :=
    byteSize_decimal_le_one _ (by have := h4 3 (by decide); omega)
  have f4 : byteSize (decimal (sd.SPL_bands_dB_fr_1dp 4)) ≤ 1 :=
    byteSize_decimal_le_one _ (by have := h4 4 (by decide); omega)
  have f5 : byteSize (decimal (sd.SPL_bands_dB_fr_1dp 5)) ≤ 1 :=
    byteSize_decimal_le_one _ (by have := h4 5 (by decide); omega)
  have fr0 : byteSize (decimal (maxSound.SPL_bands_dB_fr_1dp 0)) = 1 := by decide
  have fr1 : byteSize (decimal (maxSound.SPL_bands_dB_fr_1dp 1)) = 1 := by decide
  have fr2 : byteSize (decimal (maxSound.SPL_bands_dB_fr_1dp 2)) = 1 := by decide
  have fr3 : byteSize (decimal (maxSound.SPL_bands_dB_fr_1dp 3)) = 1 := by decide
  have fr4 : byteSize (decimal (maxSound.SPL_bands_dB_fr_1dp 4)) = 1 := by decide
  have fr5 : byteSize (decimal (maxSound.SPL_bands_dB_fr_1dp 5)) = 1 := by decide
  have p1 : byteSize (decimal sd.peak_amp_mPa_int) ≤ 5 := byteSize_decimal_le_five _ h5
  have p1r : byteSize (decimal maxSound.peak_amp_mPa_int) = 5 := by decide
  have p2 : byteSize (decimal02 sd.peak_amp_mPa_fr_2dp) ≤ 2 := byteSize_decimal02_le _ (by omega)
  have p2r : byteSize (decimal02 maxSound.peak_amp_mPa_fr_2dp) = 2 := by decide
  omega

theorem lightSection_le (ld : LightData) (h : ld.valid) :
    byteSize (lightSection ld) ≤ byteSize (lightSection maxLight) := by
  obtain ⟨h1, h2, h3⟩ := h
  unfold lightSection
  simp only [byteSize_append]
  have i1 : byteSize (decimal ld.illum_lux_int) ≤ 5 := byteSize_decimal_le_five _ h1
  have i1r : byteSize (decimal maxLight.illum_lux_int) = 5 := by decide
  have i2 : byteSize (decimal02 ld.illum_lux_fr_2dp) ≤ 2 := byteSize_decimal02_le _ (by omega)
  have i2r : byteSize (decimal02 maxLight.illum_lux_fr_2dp) = 2 := by decide
  have w1 : byteSize (decimal ld.white) ≤ 5 := byteSize_decimal_le_five _ h3
  have w1r : byteSize (decimal maxLight.white) = 5 := by decide
  omega

theorem particulateSection_le (sensor : ParticleSensorT) (pd : ParticleData)
    (h : pd.valid) :
    byteSize (particulateSection sensor pd) ≤
      byteSize (particulateSection ParticleSensorT.sds011 maxPart) := by
  obtain ⟨h1, h2, h3, h4⟩ := h
  have d1 : byteSize (decimal pd.duty_cycle_pc_int) ≤ 3 :=
    byteSize_decimal_le_three _ (by omega)
  have d1r : byteSize (decimal maxPart.duty_cycle_pc_int) = 3 := by decide
  have d2 : byteSize (decimal02 pd.duty_cycle_pc_fr_2dp) ≤ 2 := byteSize_decimal02_le _ (by omega)
  have d2r : byteSize (decimal02 maxPart.duty_cycle_pc_fr_2dp) = 2 := by decide
  have c1 : byteSize (decimal pd.concentration_int) ≤ 5 := byteSize_decimal_le_five _ h3
  have c1r : byteSize (decimal maxPart.concentration_int) = 5 := by decide
  have c2 : byteSize (decimal02 pd.concentration_fr_2dp) ≤ 2 := byteSize_decimal02_le _ (by omega)
  have c2r : byteSize (decimal02 maxPart.concentration_fr_2dp) = 2 := by decide
  cases sensor with
  | off =>
    unfold particulateSection
    rw [if_neg (show ¬ ParticleSensorT.off ≠ ParticleSensorT.off by decide)]
    rw [show byteSize "" = 0 from rfl]
    exact Nat.zero_le _
  | ppd42 =>
    unfold particulateSection unitsBuffer
    rw [if_pos (show ParticleSensorT.ppd42 ≠ ParticleSensorT.off by decide),
      if_pos (show ParticleSensorT.sds011 ≠ ParticleSensorT.off by decide),
      if_pos (show ParticleSensorT.ppd42 = ParticleSensorT.ppd42 by rfl),
      if_neg (show ¬ ParticleSensorT.sds011 = ParticleSensorT.ppd42 by decide),
      if_pos (show ParticleSensorT.sds011 = ParticleSensorT.sds011 by rfl)]
    simp only [byteSize_append]
    have u1 : byteSize "ppL" = 3 := by decide
    have u2 : byteSize SDS011_UNIT_SYMBOL = 7 := by decide
    omega
  | sds011 =>
    unfold particulateSection unitsBuffer
    rw [if_pos (show ParticleSensorT.sds011 ≠ ParticleSensorT.off by decide),
      if_pos (show ParticleSensorT.sds011 ≠ ParticleSensorT.off by decide),
      if_neg (show ¬ ParticleSensorT.sds011 = ParticleSensorT.ppd42 by decide),
      if_pos (show ParticleSensorT.sds011 = ParticleSensorT.sds011 by rfl)]
    simp only [byteSize_append]
    omega

/-- Claim C1: for every valid combination of record values within their
field ranges (including maximum-digit values in every numeric field, both
particulate variants, and both air-quality accuracy branches), the
document produced by `assembleWebPage` has size at most the declared
capacity of `pageBuffer` (2300 bytes including the terminating NUL).
Since the buffer is built by appends only, every intermediate `strcat` is
a prefix of the final document, so no append writes past the end of
`pageBuffer`. -/
theorem C1_pageBuffer_capacity (sensor : ParticleSensorT) (r : Records)
    (n : Nat) (hr : r.valid) (hn : n < 65536) :
    byteSize (assembleWebPage sensor r n) + 1 ≤ 2300 := by
  obtain ⟨ha, hq, hl, hs, hp⟩ := hr
  have h1 := httpHeader_le n hn
  have h2 := airSection_le r.air ha
  have h3 := airQualitySection_le r.airQuality hq
  have h4 := soundSection_le r.sound hs
  have h5 := lightSection_le r.light hl
  have h6 := particulateSection_le sensor r.particle hp
  have hfin : byteSize (httpHeader 65535) + byteSize htmlHead +
      byteSize (airSection maxAir) + (byteSize (airQualitySection maxAQ) + 1) +
      byteSize (soundSection maxSound) + byteSize (lightSection maxLight) +
      byteSize (particulateSection ParticleSensorT.sds011 maxPart) +
      byteSize pageClose + 1 ≤ 2300 := by decide
  unfold assembleWebPage assembleWebPageFrom strcatInto sprintfInto
  simp only [byteSize_append]
  omega

/-- Witness for C1 at the extremal record set, the SDS011 variant and the
largest refresh value. -/
theorem C1_pageBuffer_capacity_witness :
    byteSize (assembleWebPage ParticleSensorT.sds011 maxRecords 65535) + 1 ≤ 2300 :=
  C1_pageBuffer_capacity ParticleSensorT.sds011 maxRecords 65535
    (by decide) (by decide)

/-- `handleClientRequests()` (web_server.ino lines 211-240) for one
accepted connection, as a function of the finite byte stream the client
sends before the connection closes.  The `blankLine` flag starts false;
a newline seen with the flag set means the end-of-headers empty line was
observed, at which point the whole `pageBuffer` is written (`some page`)
and the connection is closed; carriage returns leave the flag unchanged;
any other byte clears it.  If the stream ends first, the loop exits on
`client.connected()` turning false and nothing is written (`none`);
the connection is closed in either case. -/
def handleClientRequests (page : String) : List Char → Bool → Option String
  | [], _ => none
  | c :: rest, blankLine =>
    if c = '\n' then
      if blankLine then some page
      else handleClientRequests page rest true
    else if c = '\r' then handleClientRequests page rest blankLine
    else handleClientRequests page rest false

/-- Modelled from the spec: an empty line was observed in the stream —
two end-of-line markers with no content between them, carriage returns
being ignored for the detection. -/
def hasEmptyLine (bs : List Char) : Prop :=
  ∃ u v w, bs = u ++ ('\n' :: v) ++ ('\n' :: w) ∧ ∀ c ∈ v, c = '\r'

/-- The stream completes an empty line whose first end-of-line marker was
already seen: up to carriage returns, it starts with a newline. -/
def endsHeadersNow (bs : List Char) : Prop :=
  ∃ v w, bs = v ++ ('\n' :: w) ∧ ∀ c ∈ v, c = '\r'

theorem hasEmptyLine_nil : ¬ hasEmptyLine [] := by
  rintro ⟨u, v, w, heq, -⟩
  simp at heq

theorem endsHeadersNow_nil : ¬ endsHeadersNow [] := by
  rintro ⟨v, w, heq, -⟩
  simp at heq

theorem endsHeadersNow_lf (rest : List Char) : endsHeadersNow ('\n' :: rest) :=
  ⟨[], rest, rfl, by simp⟩

theorem endsHeadersNow_cr (rest : List Char) :
    endsHeadersNow ('\r' :: rest) ↔ endsHeadersNow rest := by
  constructor
  · rintro ⟨v, w, heq, hv⟩
    cases v with
    | nil =>
      injection heq with h1 _
      exact absurd h1 (by decide)
    | cons a v' =>
      injection heq with h1 h2
      exact ⟨v', w, h2, fun c hc => hv c (List.mem_cons_of_mem a hc)⟩
  · rintro ⟨v, w, rfl, hv⟩
    refine ⟨'\r' :: v, w, rfl, ?_⟩
    intro c hc
    rcases List.mem_cons.mp hc with h | h
    · exact h
    · exact hv c h

theorem endsHeadersNow_other (c : Char) (rest : List Char)
    (h1 : c ≠ '\n') (h2 : c ≠ '\r') : ¬ endsHeadersNow (c :: rest) := by
  rintro ⟨v, w, heq, hv⟩
  cases v with
  | nil =>
    injection heq with ha _
    exact h1 ha
  | cons a v' =>
    injection heq with ha _
    exact h2 (ha ▸ hv a (List.mem_cons_self a v'))

theorem hasEmptyLine_lf (rest : List Char) :
    hasEmptyLine ('\n' :: rest) ↔ endsHeadersNow rest ∨ hasEmptyLine rest := by
  constructor
  · rintro ⟨u, v, w, heq, hv⟩
    cases u with
    | nil =>
      injection heq with _ h2
      exact Or.inl ⟨v, w, h2, hv⟩
    | cons a u' =>
      injection heq with _ h2
      exact Or.inr ⟨u', v, w, h2, hv⟩
  · rintro (⟨v, w, rfl, hv⟩ | ⟨u, v, w, rfl, hv⟩)
    · exact ⟨[], v, w, rfl, hv⟩
    · exact ⟨'\n' :: u, v, w, rfl, hv⟩

theorem hasEmptyLine_cons_ne (c : Char) (rest : List Char) (h : c ≠ '\n') :
    hasEmptyLine (c :: rest) ↔ hasEmptyLine rest := by
  constructor
  · rintro ⟨u, v, w, heq, hv⟩
    cases u with
    | nil =>
      injection heq with ha _
      exact absurd ha h
    | cons a u' =>
      injection heq with _ h2
      exact ⟨u', v, w, h2, hv⟩
  · rintro ⟨u, v, w, rfl, hv⟩
    exact ⟨c :: u, v, w, rfl, hv⟩

theorem handleClientRequests_characterization (page : String) :
    ∀ bs : List Char,
      (handleClientRequests page bs false = some page ↔ hasEmptyLine bs) ∧
      (handleClientRequests page bs true = some page ↔
        (endsHeadersNow bs ∨ hasEmptyLine bs)) := by
  intro bs
  induction bs with
  | nil =>
    constructor
    · exact ⟨fun h => by simp [handleClientRequests] at h,
        fun h => absurd h hasEmptyLine_nil⟩
    · exact ⟨fun h => by simp [handleClientRequests] at h,
        fun h => by rcases h with h | h
                    · exact absurd h endsHeadersNow_nil
                    · exact absurd h hasEmptyLine_nil⟩
  | cons c rest ih =>
    obtain ⟨ihF, ihT⟩ := ih
    by_cases hn : c = '\n'
    · subst hn
      constructor
      · rw [show handleClientRequests page ('\n' :: rest) false =
            handleClientRequests page rest true from by simp [handleClientRequests]]
        rw [hasEmptyLine_lf]
        exact ihT
      · rw [show handleClientRequests page ('\n' :: rest) true = some page from by
            simp [handleClientRequests]]
        exact ⟨fun _ => Or.inl (endsHeadersNow_lf rest), fun _ => rfl⟩
    · by_cases hr : c = '\r'
      · subst hr
        constructor
        · rw [show handleClientRequests page ('\r' :: rest) false =
              handleClientRequests page rest false from by simp [handleClientRequests]]
          rw [hasEmptyLine_cons_ne _ _ (by decide)]
          exact ihF
        · rw [show handleClientRequests page ('\r' :: rest) true =
              handleClientRequests page rest true from by simp [handleClientRequests]]
          rw [endsHeadersNow_cr, hasEmptyLine_cons_ne _ _ (by decide)]
          exact ihT
      · constructor
        · rw [show handleClientRequests page (c :: rest) false =
              handleClientRequests page rest false from by
                simp [handleClientRequests, hn, hr]]
          rw [hasEmptyLine_cons_ne _ _ hn]
          exact ihF
        · rw [show handleClientRequests page (c :: rest) true =
              handleClientRequests page rest false from by
                simp [handleClientRequests, hn, hr]]
          constructor
          · intro h
            exact Or.inr ((hasEmptyLine_cons_ne c rest hn).mpr (ihF.mp h))
          · rintro (h | h)
            · exact absurd h (endsHeadersNow_other c rest hn hr)
            · exact ihF.mpr ((hasEmptyLine_cons_ne c rest hn).mp h)

theorem handleClientRequests_shape (page : String) :
    ∀ (bs : List Char) (b : Bool),
      handleClientRequests page bs b = none ∨
      handleClientRequests page bs b = some page := by
  intro bs
  induction bs with
  | nil => intro b; exact Or.inl rfl
  | cons c rest ih =>
    intro b
    simp only [handleClientRequests]
    by_cases hn : c = '\n'
    · rw [if_pos hn]
      cases b with
      | false => exact ih true
      | true => exact Or.inr rfl
    · rw [if_neg hn]
      by_cases hr : c = '\r'
      · rw [if_pos hr]
        exact ih b
      · rw [if_neg hr]
        exact ih false

/-- The all-zero records the globals are initialised to
(web_server.ino lines 70-74, `= {0}` initialisers). -/
def zeroRecords : Records :=
  ⟨⟨0, 0, 0, 0, 0, 0⟩, ⟨0, 0, 0, 0, 0, 0, 0⟩, ⟨0, 0, 0⟩,
    ⟨0, 0, fun _ => 0, fun _ => 0, 0, 0⟩, ⟨0, 0, 0, 0⟩⟩

/-- The scheduler state the sketch keeps across `loop()` iterations:
the hardware data-ready flag (`ready_assertion_event`), the record
globals and the `pageBuffer` contents. -/
structure LoopState where
  ready_assertion_event : Bool
  records : Records
  pageBuffer : String

/-- The state right after `setup()` returns: the flag was cleared
(line 138), the records are still zero-initialised and `pageBuffer` still
holds its `= {0}` initialiser, i.e. the empty C string. -/
def initialLoopState : LoopState :=
  ⟨false, zeroRecords, ""⟩

/-- The environment of one acquisition cycle: what the external
collaborators deliver during it — the record values the `ReceiveI2C`
transactions produce, the link status `WiFi.status()` reports, the
address a (re)connection obtains, and whether the hardware asserts the
ready signal again while the cycle body runs. -/
structure CycleEnv where
  newRecords : Records
  wifiConnected : Bool
  newIP : String
  readyDuringCycle : Bool

/-- Externally visible actions of one acquisition cycle, in program
order. -/
inductive Act where
  | receiveData
  | assemblePage
  | checkLink (connected : Bool)
  | logStatus
  | reconnect
  | reportAddress (ip : String)
deriving DecidableEq

/-- One pass of `loop()` (web_server.ino lines 151-207) after the
data-ready event was observed and cleared: read the records over the bus
(the particulate read is skipped, and the old record kept, when no
particulate sensor is configured), rebuild `pageBuffer`, then — only when
`createWifiNetwork` is false (Joining mode) — check the link and, if it
is not connected, log the status, blockingly reconnect, report the newly
obtained address and clear the ready flag (line 205).  The ready flag is
otherwise whatever the hardware asserted during the cycle. -/
def acquireCycle (createWifiNetwork : Bool) (sensor : ParticleSensorT)
    (refreshPeriodSeconds : Nat) (env : CycleEnv) (st : LoopState) :
    LoopState × List Act :=
  let recs : Records :=
    ⟨env.newRecords.air, env.newRecords.airQuality, env.newRecords.light,
      env.newRecords.sound,
      if sensor ≠ ParticleSensorT.off then env.newRecords.particle
      else st.records.particle⟩
  let page := assembleWebPage sensor recs refreshPeriodSeconds
  if createWifiNetwork then
    (⟨env.readyDuringCycle, recs, page⟩, [Act.receiveData, Act.assemblePage])
  else if env.wifiConnected then
    (⟨env.readyDuringCycle, recs, page⟩,
      [Act.receiveData, Act.assemblePage, Act.checkLink true])
  else
    (⟨false, recs, page⟩,
      [Act.receiveData, Act.assemblePage, Act.checkLink false, Act.logStatus,
        Act.reconnect, Act.reportAddress env.newIP])

/-- Keep only the characters of `l` that occur in the pattern-alphabet
`P`.  Occurrences of a pattern whose characters all lie in `P` survive
sieving, so absence of the pattern in the sieved text implies absence in
the original text; sieving erases every rendered digit, which makes the
sieved document independent of the numeric record fields. -/
def sieve (P : List Char) (l : List Char) : List Char :=
  l.filter fun c => P.contains c

theorem sieve_append (P a b : List Char) :
    sieve P (a ++ b) = sieve P a ++ sieve P b := by
  simp [sieve]

theorem sieve_keeps {P p l : List Char}
    (hp : ∀ c ∈ p, P.contains c = true) (h : p <:+: l) : p <:+: sieve P l := by
  obtain ⟨s, t, rfl⟩ := h
  rw [sieve_append, sieve_append]
  have hid : sieve P p = p := List.filter_eq_self.mpr hp
  rw [hid]
  exact ⟨sieve P s, sieve P t, rfl⟩

theorem sieve_decimal (P : List Char)
    (hP : ∀ d, d < 10 → P.contains (Nat.digitChar d) = false) (n : Nat) :
    sieve P (decimal n).data = [] := by
  unfold sieve
  apply List.filter_eq_nil_iff.mpr
  intro a ha
  rw [decimal_eq_core] at ha
  rcases natDigitsCore_mem n [] a ha with ⟨d, hd, hcd⟩ | hmem
  · rw [hcd]
    simpa using hP d hd
  · exact absurd hmem (List.not_mem_nil a)

theorem sieve_decimal02 (P : List Char)
    (hP : ∀ d, d < 10 → P.contains (Nat.digitChar d) = false) (n : Nat) :
    sieve P (decimal02 n).data = [] := by
  unfold decimal02
  by_cases h : n < 10
  · rw [if_pos h, data_append, sieve_append, sieve_decimal P hP n]
    rw [show ("0" : String).data = ['0'] from rfl]
    have h0 : P.contains '0' = false := hP 0 (by omega)
    simp [sieve]
    simpa using h0
  · rw [if_neg h]
    exact sieve_decimal P hP n

theorem sieve_sign (P : List Char) (hP : P.contains '-' = false)
    (p : Prop) [Decidable p] :
    sieve P (if p then "" else "-").data = [] := by
  by_cases h : p
  · rw [if_pos h]
    rfl
  · rw [if_neg h]
    rw [show ("-" : String).data = ['-'] from rfl]
    simp [sieve]
    simpa using hP

theorem sub_append_right {p b : List Char} (a : List Char) (h : p <:+: b) :
    p <:+: a ++ b := by
  obtain ⟨s, t, rfl⟩ := h
  exact ⟨a ++ s, t, by simp⟩

theorem sub_append_left {p a : List Char} (b : List Char) (h : p <:+: a) :
    p <:+: a ++ b := by
  obtain ⟨s, t, rfl⟩ := h
  exact ⟨s, t ++ b, by simp⟩

theorem interpret_AQI_value_cases (n : Nat) :
    interpret_AQI_value n = "Good" ∨ interpret_AQI_value n = "Acceptable" ∨
    interpret_AQI_value n = "Substandard" ∨ interpret_AQI_value n = "Poor" ∨
    interpret_AQI_value n = "Bad" ∨ interpret_AQI_value n = "Very bad" := by
  unfold interpret_AQI_value
  repeat' split
  all_goals simp

theorem string_ext (s t : String) (h : s.data = t.data) : s = t := by
  cases s with
  | mk a =>
    cases t with
    | mk b => exact congrArg String.mk h

theorem particulateSection_off (pd : ParticleData) :
    particulateSection ParticleSensorT.off pd = "" := rfl

theorem particulateSection_ppd42 (pd : ParticleData) :
    particulateSection ParticleSensorT.ppd42 pd =
      "<p><h2>Air Particulate Data</h2><table>" ++
      ("<tr><td>Sensor Duty Cycle</td><td id=\x27v5\x27>" ++
        decimal pd.duty_cycle_pc_int ++ "." ++
        decimal02 pd.duty_cycle_pc_fr_2dp ++ "</td><td>%</td></tr>") ++
      ("<tr><td>Particle Concentration</td><td id=\x27v5\x27>" ++
        decimal pd.concentration_int ++ "." ++
        decimal02 pd.concentration_fr_2dp ++
        ("</td><td>" ++ "ppL" ++ "</td></tr></table></p>")) := rfl

theorem particulateSection_sds011 (pd : ParticleData) :
    particulateSection ParticleSensorT.sds011 pd =
      "<p><h2>Air Particulate Data</h2><table>" ++
      ("<tr><td>Sensor Duty Cycle</td><td id=\x27v5\x27>" ++
        decimal pd.duty_cycle_pc_int ++ "." ++
        decimal02 pd.duty_cycle_pc_fr_2dp ++ "</td><td>%</td></tr>") ++
      ("<tr><td>Particle Concentration</td><td id=\x27v5\x27>" ++
        decimal pd.concentration_int ++ "." ++
        decimal02 pd.concentration_fr_2dp ++
        ("</td><td>" ++ SDS011_UNIT_SYMBOL ++ "</td></tr></table></p>")) := rfl

/-- The characters of the first air-quality table row label. -/
def aqiIndexLabel : List Char := "Air Quality Index".data

/-- The characters of the particulate section heading. -/
def particulateHeading : List Char := "Air Particulate Data".data

/-- The document assembled before the Air Quality section. -/
def pageBeforeAQ (r : Records) (n : Nat) : String :=
  httpHeader n ++ htmlHead ++ airSection r.air

/-- The document assembled after the Air Quality section. -/
def pageAfterAQ (sensor : ParticleSensorT) (r : Records) : String :=
  soundSection r.sound ++ lightSection r.light ++
  particulateSection sensor r.particle ++ pageClose

/-- The document assembled before the (conditional) Particulate section. -/
def pagePreParticulate (r : Records) (n : Nat) : String :=
  httpHeader n ++ htmlHead ++ airSection r.air ++ airQualitySection r.airQuality ++
  soundSection r.sound ++ lightSection r.light

/-- Executable check that `p` is a leading segment of `l`. -/
def startsWith : List Char → List Char → Bool
  | [], _ => true
  | _ :: _, [] => false
  | a :: p, b :: l => a == b && startsWith p l

/-- Executable check that `p` occurs contiguously somewhere in `l`;
mirrors the substring test used to state the section-presence claims. -/
def occursIn (p : List Char) : List Char → Bool
  | [] => p.isEmpty
  | b :: l => startsWith p (b :: l) || occursIn p l

theorem startsWith_iff : ∀ (p l : List Char), startsWith p l = true ↔ p <+: l := by
  intro p
  induction p with
  | nil =>
    intro l
    simp only [startsWith]
    constructor
    · intro _
      exact ⟨l, rfl⟩
    · intro _
      trivial
  | cons a p ih =>
    intro l
    cases l with
    | nil =>
      simp only [startsWith]
      constructor
      · intro h
        cases h
      · rintro ⟨t, h⟩
        simp at h
    | cons b l =>
      simp only [startsWith, Bool.and_eq_true, beq_iff_eq, ih]
      constructor
      · rintro ⟨rfl, t, rfl⟩
        exact ⟨t, rfl⟩
      · rintro ⟨t, h⟩
        injection h with h1 h2
        exact ⟨h1, t, h2⟩

theorem sub_cons_iff (p l : List Char) (b : Char) :
    p <:+: (b :: l) ↔ (p <+: (b :: l)) ∨ p <:+: l := by
  constructor
  · rintro ⟨s, t, h⟩
    cases s with
    | nil => exact Or.inl ⟨t, by simpa using h⟩
    | cons a s' =>
      injection h with _ h2
      exact Or.inr ⟨s', t, h2⟩
  · rintro (⟨t, h⟩ | ⟨s, t, h⟩)
    · exact ⟨[], t, by simpa using h⟩
    · refine ⟨b :: s, t, ?_⟩
      rw [← h]
      rfl

theorem occursIn_iff (p : List Char) : ∀ l, occursIn p l = true ↔ p <:+: l := by
  intro l
  induction l with
  | nil =>
    cases p with
    | nil =>
      simp only [occursIn, List.isEmpty]
      constructor
      · intro _
        exact ⟨[], [], rfl⟩
      · intro _
        trivial
    | cons a p =>
      simp only [occursIn, List.isEmpty]
      constructor
      · intro h
        cases h
      · rintro ⟨s, t, h⟩
        simp at h
  | cons b l ih =>
    simp only [occursIn, Bool.or_eq_true, startsWith_iff, ih, sub_cons_iff]

/-- When `AQI_accuracy` is 0, no row labelled `Air Quality Index` occurs
anywhere in the assembled document, whatever the particulate
configuration: sieving the document to the label's alphabet erases every
rendered digit and leaves a fixed text in which the label does not occur. -/
theorem noTable_of_uncalibrated (sensor : ParticleSensorT) (r : Records)
    (n : Nat) (h0 : r.airQuality.AQI_accuracy = 0) :
    ¬ (aqiIndexLabel <:+: (assembleWebPage sensor r n).data) := by
  intro h
  have h2 := sieve_keeps (P := aqiIndexLabel) (by decide) h
  have hdig : ∀ d, d < 10 → aqiIndexLabel.contains (Nat.digitChar d) = false := by
    decide
  have hdash : aqiIndexLabel.contains '-' = false := by decide
  have hemp : sieve aqiIndexLabel ("" : String).data = [] := rfl
  cases sensor <;>
    (simp only [assembleWebPage, assembleWebPageFrom, strcatInto, sprintfInto,
       httpHeader, htmlHead, airSection, airQualitySection, soundSection,
       soundBandRows_six, soundBandRow, lightSection, pageClose,
       particulateSection_off, particulateSection_ppd42, particulateSection_sds011,
       hemp, data_append, sieve_append, sieve_decimal aqiIndexLabel hdig,
       sieve_decimal02 aqiIndexLabel hdig, sieve_sign aqiIndexLabel hdash,
       List.append_nil, List.nil_append] at h2;
     rw [h0] at h2;
     rw [if_pos rfl] at h2;
     simp only [data_append, sieve_append, sieve_decimal aqiIndexLabel hdig,
       List.append_nil, List.nil_append] at h2;
     exact absurd ((occursIn_iff aqiIndexLabel _).mpr h2) (by decide))

/-- With no particulate sensor configured, the heading `Air Particulate
Data` occurs nowhere in the assembled document, for any record values:
sieving to the heading's alphabet erases the digits and the sign and
leaves a fixed text, one for each air-quality branch, in which the
heading does not occur. -/
theorem noParticulates_of_off (r : Records) (n : Nat) :
    ¬ (particulateHeading <:+: (assembleWebPage ParticleSensorT.off r n).data) := by
  intro h
  have h2 := sieve_keeps (P := particulateHeading) (by decide) h
  have hdig : ∀ d, d < 10 → particulateHeading.contains (Nat.digitChar d) = false := by
    decide
  have hdash : particulateHeading.contains '-' = false := by decide
  have hemp : sieve particulateHeading ("" : String).data = [] := rfl
  simp only [assembleWebPage, assembleWebPageFrom, strcatInto, sprintfInto,
    httpHeader, htmlHead, airSection, airQualitySection, aqRow1, aqRow2, aqRow3,
    aqRow4, soundSection, soundBandRows_six, soundBandRow, lightSection,
    pageClose, particulateSection_off, hemp, data_append, sieve_append,
    sieve_decimal particulateHeading hdig, sieve_decimal02 particulateHeading hdig,
    sieve_sign particulateHeading hdash,
    List.append_nil, List.nil_append] at h2
  by_cases hacc : r.airQuality.AQI_accuracy = 0
  · rw [hacc] at h2
    rw [if_pos rfl] at h2
    simp only [data_append, sieve_append, sieve_decimal particulateHeading hdig,
      sieve_decimal02 particulateHeading hdig, List.append_nil,
      List.nil_append] at h2
    exact absurd ((occursIn_iff particulateHeading _).mpr h2) (by decide)
  · rw [if_neg hacc] at h2
    simp only [data_append, sieve_append, sieve_decimal particulateHeading hdig,
      sieve_decimal02 particulateHeading hdig, List.append_nil,
      List.nil_append] at h2
    rcases interpret_AQI_value_cases r.airQuality.AQI_int with he | he | he | he | he | he <;>
      rw [he] at h2 <;>
      exact absurd ((occursIn_iff particulateHeading _).mpr h2) (by decide)

/-- Claim C2: for every record set, the Air Quality section of the
document produced by `assembleWebPage` consists of only the calibration
message when the accuracy field is 0 — and the table row labelled `Air
Quality Index` then occurs nowhere in the whole document — while for
accuracy > 0 the section is exactly the four rows Air Quality Index, Air
Quality Summary, Estimated CO2, Equivalent Breath VOC, in that fixed
order; the document always decomposes around this section. -/
theorem C2_airQuality_section (sensor : ParticleSensorT) (r : Records) (n : Nat) :
    (r.airQuality.AQI_accuracy = 0 →
      airQualitySection r.airQuality =
        "<p><h2>Air Quality Data</h2>" ++
          ("<a>" ++ interpret_AQI_accuracy 0 ++ "</a></p>") ∧
      ¬ (aqiIndexLabel <:+: (assembleWebPage sensor r n).data)) ∧
    (0 < r.airQuality.AQI_accuracy →
      airQualitySection r.airQuality =
        "<p><h2>Air Quality Data</h2>" ++
          (aqRow1 r.airQuality ++ aqRow2 r.airQuality ++ aqRow3 r.airQuality ++
            aqRow4 r.airQuality)) ∧
    assembleWebPage sensor r n =
      pageBeforeAQ r n ++ airQualitySection r.airQuality ++ pageAfterAQ sensor r := by
  refine ⟨fun h0 => ⟨?_, noTable_of_uncalibrated sensor r n h0⟩, fun hpos => ?_, ?_⟩
  · unfold airQualitySection
    rw [h0, if_pos rfl]
  · unfold airQualitySection
    rw [if_neg (by omega)]
  · apply string_ext
    simp only [assembleWebPage, assembleWebPageFrom, strcatInto, sprintfInto,
      pageBeforeAQ, pageAfterAQ, data_append, List.append_assoc]

/-- Witness for C2: at the all-zero records (accuracy 0) the document has
no Air Quality Index row, and at the extremal records (accuracy 1) the
section is exactly the four-row table. -/
theorem C2_airQuality_section_witness :
    (¬ (aqiIndexLabel <:+: (assembleWebPage ParticleSensorT.off zeroRecords 3).data)) ∧
    airQualitySection maxRecords.airQuality =
      "<p><h2>Air Quality Data</h2>" ++
        (aqRow1 maxRecords.airQuality ++ aqRow2 maxRecords.airQuality ++
          aqRow3 maxRecords.airQuality ++ aqRow4 maxRecords.airQuality) :=
  ⟨((C2_airQuality_section ParticleSensorT.off zeroRecords 3).1 rfl).2,
    (C2_airQuality_section ParticleSensorT.off maxRecords 3).2.1 (by decide)⟩

/-- Claim C5: with the particulate configuration off, the Particulate
section is empty and its heading occurs nowhere in the document; with the
PPD42 or SDS011 variant configured the heading always occurs, with the
variant-specific unit label in the concentration row (`ppL` for PPD42,
the SDS011 unit symbol for SDS011); for every configuration the document
decomposes around the (possibly empty) Particulate section. -/
theorem C5_particulate_section (r : Records) (n : Nat) :
    (particulateSection ParticleSensorT.off r.particle = "" ∧
      ¬ (particulateHeading <:+: (assembleWebPage ParticleSensorT.off r n).data)) ∧
    (particulateHeading <:+: (assembleWebPage ParticleSensorT.ppd42 r n).data ∧
      ("<td>ppL</td>").data <:+: (assembleWebPage ParticleSensorT.ppd42 r n).data) ∧
    (particulateHeading <:+: (assembleWebPage ParticleSensorT.sds011 r n).data ∧
      ("<td>" ++ SDS011_UNIT_SYMBOL ++ "</td>").data <:+:
        (assembleWebPage ParticleSensorT.sds011 r n).data) ∧
    (∀ sensor : ParticleSensorT,
      assembleWebPage sensor r n =
        pagePreParticulate r n ++ particulateSection sensor r.particle ++ pageClose) := by
  have hdecomp : ∀ sensor : ParticleSensorT,
      assembleWebPage sensor r n =
        pagePreParticulate r n ++ particulateSection sensor r.particle ++ pageClose := by
    intro sensor
    apply string_ext
    simp only [assembleWebPage, assembleWebPageFrom, strcatInto, sprintfInto,
      pagePreParticulate, data_append, List.append_assoc]
  have hlift : ∀ (sensor : ParticleSensorT) (p : List Char),
      p <:+: (particulateSection sensor r.particle).data →
      p <:+: (assembleWebPage sensor r n).data := by
    intro sensor p hp
    rw [hdecomp sensor, data_append, data_append]
    exact sub_append_left _ (sub_append_right _ hp)
  refine ⟨⟨particulateSection_off r.particle, noParticulates_of_off r n⟩,
    ⟨?_, ?_⟩, ⟨?_, ?_⟩, hdecomp⟩
  · apply hlift
    rw [particulateSection_ppd42]
    simp only [data_append]
    exact sub_append_left _ (sub_append_left _ (by decide))
  · apply hlift
    rw [particulateSection_ppd42]
    simp only [data_append]
    apply sub_append_right
    apply sub_append_right
    decide
  · apply hlift
    rw [particulateSection_sds011]
    simp only [data_append]
    exact sub_append_left _ (sub_append_left _ (by decide))
  · apply hlift
    rw [particulateSection_sds011]
    simp only [data_append]
    apply sub_append_right
    apply sub_append_right
    decide

/-- Counterexample to claim C3 as stated: at the 100-second cadence the
refresh hint chosen in `setup()` is 30 seconds, which is smaller — not
greater or equal — than the time between data updates. -/
theorem C3_refresh_ge_cadence_cex :
    setupRefreshPeriodSeconds CyclePeriod.s100 = 30 ∧
    cyclePeriodSeconds CyclePeriod.s100 = 100 ∧
    ¬ (cyclePeriodSeconds CyclePeriod.s100 ≤
        setupRefreshPeriodSeconds CyclePeriod.s100) := by
  refine ⟨rfl, rfl, ?_⟩
  decide

/-- Claim C3 as amended: for each of the three configured cadences the
refresh hint selected at startup is less than or equal to the cadence
period — the page refreshes at least as often as new data are obtained,
matching the comment at web_server.ino lines 120-123 — and longer
cadences are mapped to longer refresh hints. -/
theorem C3_refresh_le_cadence (p q : CyclePeriod) :
    setupRefreshPeriodSeconds p ≤ cyclePeriodSeconds p ∧
    (cyclePeriodSeconds p < cyclePeriodSeconds q →
      setupRefreshPeriodSeconds p < setupRefreshPeriodSeconds q) := by
  cases p <;> cases q <;> exact ⟨by decide, by decide⟩

/-- Witness for the amended C3 at the 100 s and 300 s cadences. -/
theorem C3_refresh_le_cadence_witness :
    setupRefreshPeriodSeconds CyclePeriod.s100 <
      setupRefreshPeriodSeconds CyclePeriod.s300 :=
  (C3_refresh_le_cadence CyclePeriod.s100 CyclePeriod.s300).2 (by decide)

/-- Claim C4: for every inbound byte stream, the dispatcher writes the
full current document exactly when an empty line — two end-of-line
markers with only carriage returns between them — is observed (and it
never writes anything else); in particular `GET / HTTP/1.1\r\n\r\n`
receives the full document while `GET / HTTP/1.1\r\n` followed by the
connection closing receives no response. -/
theorem C4_dispatcher (page : String) (bs : List Char) :
    (handleClientRequests page bs false = some page ↔ hasEmptyLine bs) ∧
    (handleClientRequests page bs false = none ∨
      handleClientRequests page bs false = some page) ∧
    handleClientRequests page ("GET / HTTP/1.1\r\n\r\n".data) false = some page ∧
    handleClientRequests page ("GET / HTTP/1.1\r\n".data) false = none :=
  ⟨(handleClientRequests_characterization page bs).1,
    handleClientRequests_shape page bs false, rfl, rfl⟩

/-- Witness for C4 at a concrete document and the two scenario streams. -/
theorem C4_dispatcher_witness :
    handleClientRequests "doc" ("GET / HTTP/1.1\r\n\r\n".data) false = some "doc" ∧
    handleClientRequests "doc" ("GET / HTTP/1.1\r\n".data) false = none :=
  ⟨(C4_dispatcher "doc" []).2.2.1, (C4_dispatcher "doc" []).2.2.2⟩

/-- Claim C6 shows a divergence between code and spec: at startup, before
the first acquisition cycle completes, `pageBuffer` holds its `= {0}`
initialiser — the empty C string — so a client completing a request in
that window is served zero bytes, not a complete well-formed document
rendering the all-zero records: the zero-record document `assembleWebPage`
would produce is nonempty and starts with the HTTP status line, while the
initial buffer does not. -/
theorem C6_initial_page_bug :
    initialLoopState.pageBuffer = "" ∧
    handleClientRequests initialLoopState.pageBuffer
      ("GET / HTTP/1.1\r\n\r\n".data) false = some "" ∧
    assembleWebPage ParticleSensorT.off zeroRecords 3 ≠ "" ∧
    ¬ (("HTTP/1.1 200 OK").data <+: initialLoopState.pageBuffer.data) ∧
    ("HTTP/1.1 200 OK").data <+:
      (assembleWebPage ParticleSensorT.off zeroRecords 3).data := by
  refine ⟨rfl, rfl, ?_, ?_, ?_⟩
  · decide
  · decide
  · decide

/-- Claim C7: in Joining mode (`createWifiNetwork = false`) every
acquisition cycle checks the link status after page assembly; if it is
not connected the cycle logs the status, blockingly re-attempts joining,
reports the newly obtained address on the serial channel and clears the
ready flag, then normal cycling resumes; when it is connected the cycle
ends right after the check.  In Hosting mode no link check or
reconnection ever occurs. -/
theorem C7_link_supervision (sensor : ParticleSensorT) (refresh : Nat)
    (env : CycleEnv) (st : LoopState) :
    (env.wifiConnected = false →
      (acquireCycle false sensor refresh env st).2 =
        [Act.receiveData, Act.assemblePage, Act.checkLink false, Act.logStatus,
          Act.reconnect, Act.reportAddress env.newIP] ∧
      (acquireCycle false sensor refresh env st).1.ready_assertion_event = false) ∧
    (env.wifiConnected = true →
      (acquireCycle false sensor refresh env st).2 =
        [Act.receiveData, Act.assemblePage, Act.checkLink true]) ∧
    ((acquireCycle true sensor refresh env st).2 =
        [Act.receiveData, Act.assemblePage] ∧
      (∀ b, Act.checkLink b ∉ (acquireCycle true sensor refresh env st).2) ∧
      Act.reconnect ∉ (acquireCycle true sensor refresh env st).2) := by
  refine ⟨fun h => ?_, fun h => ?_, ?_, ?_, ?_⟩
  · simp [acquireCycle, h]
  · simp [acquireCycle, h]
  · simp [acquireCycle]
  · intro b
    simp [acquireCycle]
  · simp [acquireCycle]

/-- A cycle environment for the reconnection scenario: the link is down
and the hardware asserts the ready signal again during the blocking
reconnection. -/
def joinEnvDown : CycleEnv := ⟨zeroRecords, false, "192.168.12.21", true⟩

/-- Witness for C7 at the reconnection scenario environment. -/
theorem C7_link_supervision_witness :
    (acquireCycle false ParticleSensorT.off 3 joinEnvDown initialLoopState).2 =
      [Act.receiveData, Act.assemblePage, Act.checkLink false, Act.logStatus,
        Act.reconnect, Act.reportAddress "192.168.12.21"] :=
  ((C7_link_supervision ParticleSensorT.off 3 joinEnvDown initialLoopState).1 rfl).1

/-- Claim C8: every document produced by `assembleWebPage` is the HTTP
status line `HTTP/1.1 200 OK`, the headers `Content-type: text/html`,
`Connection: close` and `Refresh: <seconds>` carrying the given refresh
hint, a blank line, and then the HTML body; with refresh hint 3 the
bytes `Refresh: 3` followed by the line terminator occur in the
document. -/
theorem C8_http_response_header (sensor : ParticleSensorT) (r : Records)
    (n : Nat) :
    assembleWebPage sensor r n = httpHeader n ++ htmlBody sensor r ∧
    httpHeader n =
      "HTTP/1.1 200 OK\r\n" ++ "Content-type: text/html\r\n" ++
      "Connection: close\r\n" ++ "Refresh: " ++ decimal n ++ "\r\n\r\n" ∧
    ("Refresh: 3\r\n").data <:+: (assembleWebPage sensor r 3).data := by
  refine ⟨?_, rfl, ?_⟩
  · apply string_ext
    simp only [assembleWebPage, assembleWebPageFrom, strcatInto, sprintfInto,
      htmlBody, data_append, List.append_assoc]
  · have h0 : ("Refresh: 3\r\n").data <:+: (httpHeader 3).data := by decide
    have hpg : (assembleWebPage sensor r 3).data =
        (httpHeader 3).data ++ (htmlBody sensor r).data := by
      simp only [assembleWebPage, assembleWebPageFrom, strcatInto, sprintfInto,
        htmlBody, data_append, List.append_assoc]
    rw [hpg]
    exact sub_append_left _ h0

/-- Claim C9: `assembleWebPage` is a deterministic pure function of the
records and the refresh hint — the initial `sprintf` discards whatever the
buffer held, so the result does not depend on the previous `pageBuffer`
contents, and calling the assembler twice in a row (the second call
starting from the buffer the first one left) reproduces the identical
document. -/
theorem C9_assemble_deterministic (buf1 buf2 : String)
    (sensor : ParticleSensorT) (r : Records) (n : Nat) :
    assembleWebPageFrom buf1 sensor r n = assembleWebPageFrom buf2 sensor r n ∧
    assembleWebPageFrom (assembleWebPageFrom buf1 sensor r n) sensor r n =
      assembleWebPageFrom buf1 sensor r n ∧
    assembleWebPageFrom buf1 sensor r n = assembleWebPage sensor r n :=
  ⟨rfl, rfl, rfl⟩

/-- Claim C10: in Joining mode, a cycle whose link check finds the link
disconnected clears the hardware ready flag at its end (web_server.ino
line 205), discarding any ready signal asserted during the blocking
reconnection; on cycles where the link is connected — and in Hosting
mode, where no check runs — the flag is left as the hardware set it
during the cycle. -/
theorem C10_ready_flag (sensor : ParticleSensorT) (refresh : Nat)
    (env : CycleEnv) (st : LoopState) :
    (env.wifiConnected = false →
      (acquireCycle false sensor refresh env st).1.ready_assertion_event = false) ∧
    (env.wifiConnected = true →
      (acquireCycle false sensor refresh env st).1.ready_assertion_event =
        env.readyDuringCycle) ∧
    (acquireCycle true sensor refresh env st).1.ready_assertion_event =
      env.readyDuringCycle := by
  refine ⟨fun h => ?_, fun h => ?_, ?_⟩
  · simp [acquireCycle, h]
  · simp [acquireCycle, h]
  · simp [acquireCycle]

/-- Witness for C10: in the reconnection scenario the hardware asserts
ready during the blocking reconnection, yet the cycle ends with the flag
cleared. -/
theorem C10_ready_flag_witness :
    joinEnvDown.readyDuringCycle = true ∧
    (acquireCycle false ParticleSensorT.off 3 joinEnvDown initialLoopState).1.ready_assertion_event = false :=
  ⟨rfl, (C10_ready_flag ParticleSensorT.off 3 joinEnvDown initialLoopState).1 rfl⟩
